import Mathlib

/-!
Verification of the hello_world_evolution repository: a shallow embedding of
the evolution-to-message pipeline (src/core/life_forms.py,
src/core/evolution_engine.py, src/generators/message_generator.py,
src/patterns/factory.py, src/patterns/strategy.py, src/patterns/singleton.py,
src/main.py) and proofs of the specified properties.
-/

namespace HelloWorldEvolution

/-- DNASequence (life_forms.py): a generic container holding one value.
In the program it only ever stores the integer complexity, which is always a
natural number (it starts at 1 and is only multiplied by 2, 3, 4, 5), so we
specialize the payload to Nat. -/
structure DNASequence where
  value : Nat
deriving DecidableEq, Repr

/-- DNASequence.fmap: functor map, wraps f applied to the stored value. -/
def DNASequence.fmap (d : DNASequence) (f : Nat → Nat) : DNASequence :=
  ⟨f d.value⟩

/-- DNASequence.get: return the stored value. -/
def DNASequence.get (d : DNASequence) : Nat :=
  d.value

/-- The mutable fields a LifeForm instance carries: complexity, its _dna
sequence (LifeForm.__init__), and the _message_fragment installed by
MessageCarrierMixin.__init__. -/
structure LifeFormState where
  complexity : Nat
  dna : DNASequence
  message_fragment : String
deriving DecidableEq, Repr

/-- LifeForm.__init__(complexity): sets self.complexity and
self._dna = DNASequence(complexity); MessageCarrierMixin.__init__ sets
self._message_fragment = "". -/
def LifeForm.init (complexity : Nat) : LifeFormState :=
  { complexity := complexity, dna := ⟨complexity⟩, message_fragment := "" }

/-- MessageCarrierMixin.carry_message: overwrite the message fragment. -/
def carry_message (st : LifeFormState) (fragment : String) : LifeFormState :=
  { st with message_fragment := fragment }

/-- MessageCarrierMixin.get_message_fragment. -/
def get_message_fragment (st : LifeFormState) : String :=
  st.message_fragment

/-- LifeForm.mutate(mutation_factor): self.complexity becomes
self._dna.fmap(lambda x: x * mutation_factor).get(), and _dna is replaced by
DNASequence(self.complexity). -/
def mutate (st : LifeFormState) (mutation_factor : Nat) : LifeFormState :=
  let complexity := (st.dna.fmap (fun x => x * mutation_factor)).get
  { st with complexity := complexity, dna := ⟨complexity⟩ }

/-- The four concrete LifeForm subclasses of life_forms.py. -/
inductive Species where
  | fish
  | amphibian
  | reptile
  | dinosaur
deriving DecidableEq, Repr

/-- MessageBearer (life_forms.py): the final form, holding only the
final message. -/
structure MessageBearer where
  final_message : String
deriving DecidableEq, Repr

/-- MessageBearer.reveal: return the carried message. -/
def MessageBearer.reveal (b : MessageBearer) : String :=
  b.final_message

/-- An organism flowing through the engine: either a LifeForm instance of one
of the four species, or a MessageBearer (which is not a LifeForm and has no
evolve method). -/
inductive Organism where
  | lifeForm (species : Species) (st : LifeFormState)
  | bearer (b : MessageBearer)
deriving DecidableEq, Repr

/-- Fish.__init__: complexity 1, then carry_message("H"). -/
def Fish.init : LifeFormState :=
  carry_message (LifeForm.init 1) "H"

/-- Amphibian.__init__(inherited_complexity, inherited_message):
base init with the inherited complexity, then
carry_message(inherited_message + "ello"). -/
def Amphibian.init (inherited_complexity : Nat) (inherited_message : String) :
    LifeFormState :=
  carry_message (LifeForm.init inherited_complexity) (inherited_message ++ "ello")

/-- Reptile.__init__: carry_message(inherited_message + " "). -/
def Reptile.init (inherited_complexity : Nat) (inherited_message : String) :
    LifeFormState :=
  carry_message (LifeForm.init inherited_complexity) (inherited_message ++ " ")

/-- Dinosaur.__init__: carry_message(inherited_message + "World"). -/
def Dinosaur.init (inherited_complexity : Nat) (inherited_message : String) :
    LifeFormState :=
  carry_message (LifeForm.init inherited_complexity) (inherited_message ++ "World")

/-- The evolve method of each LifeForm subclass (life_forms.py): mutate by the
stage factor (2, 3, 4, 5), then construct the successor form from the mutated
complexity and message fragment. Dinosaur.evolve builds the MessageBearer
from the (unchanged by mutate) message fragment. MessageBearer defines no
evolve method, so evolve is only defined on the four species. -/
def evolve (species : Species) (st : LifeFormState) : Organism :=
  match species with
  | .fish =>
      let m := mutate st 2
      .lifeForm .amphibian (Amphibian.init m.complexity (get_message_fragment m))
  | .amphibian =>
      let m := mutate st 3
      .lifeForm .reptile (Reptile.init m.complexity (get_message_fragment m))
  | .reptile =>
      let m := mutate st 4
      .lifeForm .dinosaur (Dinosaur.init m.complexity (get_message_fragment m))
  | .dinosaur =>
      let m := mutate st 5
      .bearer ⟨get_message_fragment m⟩

/-- EvolutionStage enum (stages.py). -/
inductive EvolutionStage where
  | PRIMORDIAL_SOUP
  | AQUATIC
  | AMPHIBIOUS
  | TERRESTRIAL
  | APEX_PREDATOR
  | TRANSCENDENT
deriving DecidableEq, Repr

/-- The fixed stages list built inside EvolutionEngine.run_evolution. -/
def run_evolution_stages : List EvolutionStage :=
  [.AQUATIC, .AMPHIBIOUS, .TERRESTRIAL, .APEX_PREDATOR, .TRANSCENDENT]

/-- The for-loop of EvolutionEngine.run_evolution: per stage, if the current
organism has an evolve method (i.e. it is a LifeForm) it becomes
current.evolve(); otherwise the loop breaks and the current organism is
returned. Observer notification and debug printing have no effect on the
returned organism. -/
def run_evolution_loop : List EvolutionStage → Organism → Organism
  | [], current => current
  | _stage :: rest, current =>
      match current with
      | .lifeForm species st => run_evolution_loop rest (evolve species st)
      | .bearer b => .bearer b

/-- EvolutionEngine.run_evolution(initial_organism): defaulting a missing
argument to Fish(), then running the stage loop. The configured strategy is
not consulted inside run_evolution (the loop calls current.evolve()
directly), so the linear strategy (whose evolve is organism.evolve()) gives
the same transitions. -/
def run_evolution (initial_organism : Option Organism) : Organism :=
  let initial :=
    match initial_organism with
    | none => Organism.lifeForm .fish Fish.init
    | some o => o
  run_evolution_loop run_evolution_stages initial

/-- LinearEvolutionStrategy.evolve: just organism.evolve(). -/
def LinearEvolutionStrategy.evolve (species : Species) (st : LifeFormState) :
    Organism :=
  HelloWorldEvolution.evolve species st

/-- The message carried by an organism: the fragment of a LifeForm, the final
message of a MessageBearer. This is the spec's accumulator view of the
pipeline state. -/
def message_of : Organism → String
  | .lifeForm _ st => st.message_fragment
  | .bearer b => b.final_message

/-- What MessageGenerator's generation functions see of their source
(message_generator.py): whether the object has a reveal method, what
reveal() returns, and what str(source) returns. For a MessageBearer,
__str__ calls reveal, so both strings coincide. -/
structure GenSource where
  has_reveal : Bool
  reveal_value : String
  str_value : String
deriving DecidableEq, Repr

/-- The GenSource view of a MessageBearer: it has reveal, and str(bearer)
is bearer.reveal(). -/
def bearerSource (b : MessageBearer) : GenSource :=
  ⟨true, b.reveal, b.reveal⟩

/-- MessageGenerator._simple_generation: str(source). -/
def MessageGenerator._simple_generation (source : GenSource) : String :=
  source.str_value

/-- MessageGenerator._dynamic_generation: builds the runtime class of
create_message_class with empty prefixes and renders
f-string of "Hello World" stripped of surrounding whitespace
(String.trim models str.strip). -/
def MessageGenerator._dynamic_generation (_source : GenSource) : String :=
  ("" ++ "Hello World" ++ "").trim

/-- MessageGenerator._meta_generation: DynamicMessageClass().compose(), i.e.
get_greeting() + get_separator() + get_target() from MessageMeta. -/
def MessageGenerator._meta_generation (_source : GenSource) : String :=
  "Hello" ++ " " ++ "World"

/-- MessageGenerator._composed_generation: source.reveal() when the source has
a reveal method, else str(source). -/
def MessageGenerator._composed_generation (source : GenSource) : String :=
  if source.has_reveal then source.reveal_value else source.str_value

/-- The self._strategies dict of MessageGenerator.__init__. -/
def MessageGenerator.strategies : List (String × (GenSource → String)) :=
  [("simple", MessageGenerator._simple_generation),
   ("dynamic", MessageGenerator._dynamic_generation),
   ("meta", MessageGenerator._meta_generation),
   ("composed", MessageGenerator._composed_generation)]

/-- MessageGenerator.generate(source, strategy):
self._strategies.get(strategy, self._simple_generation) applied to source. -/
def MessageGenerator.generate (source : GenSource) (strategy : String) : String :=
  let generation_func :=
    (MessageGenerator.strategies.lookup strategy).getD
      MessageGenerator._simple_generation
  generation_func source

/-- MessageTransformer.identity: return the message unchanged. -/
def MessageTransformer.identity (message : String) : String :=
  message

/-- MessageTransformer.apply_pipeline: fold the transformations over the
message from left to right. -/
def apply_pipeline (message : String)
    (transformations : List (String → String)) : String :=
  transformations.foldl (fun result t => t result) message

/-- HelloWorldOrchestrator.extract_message (main.py): generate the raw
message from the bearer with the composed strategy, then apply the
transformation pipeline consisting of MessageTransformer.identity. -/
def extract_message (message_bearer : MessageBearer) : String :=
  let raw_message :=
    MessageGenerator.generate (bearerSource message_bearer) "composed"
  apply_pipeline raw_message [MessageTransformer.identity]

/-- The string-level transformation extract_message applies to the raw
message: the identity pipeline. This is the spec's Result Extractor
render(finalValue). -/
def render (finalValue : String) : String :=
  apply_pipeline finalValue [MessageTransformer.identity]

/-- LazyMessage.force (message_generator.py): evaluate the stored generator
(the first evaluation, caching aside, is the generator's value). -/
def LazyMessage.force (generator : Unit → String) : String :=
  generator ()

/-- Python's str.lower as the factories use it on species and strategy
names: lower-case each character. -/
def str_lower (s : String) : String :=
  ⟨s.data.map Char.toLower⟩

/-- The registry of ConcreteLifeFormFactory.__init__ (factory.py). -/
def life_form_registry : List (String × Species) :=
  [("fish", .fish), ("amphibian", .amphibian),
   ("reptile", .reptile), ("dinosaur", .dinosaur)]

/-- The keyword arguments create_life_form forwards to a subclass
constructor; a missing argument takes the subclass default
(Amphibian 2/"", Reptile 6/"", Dinosaur 24/""). -/
structure LifeFormKwargs where
  inherited_complexity : Option Nat
  inherited_message : Option String
deriving DecidableEq, Repr

/-- ConcreteLifeFormFactory.create_life_form(species_type, **kwargs): look up
the lower-cased species in the registry, raising
ValueError("Unknown species type: ...") when absent; construct Fish with no
arguments, other species from the kwargs (defaults per the subclass
signatures). -/
def create_life_form (species_type : String) (kwargs : LifeFormKwargs) :
    Except String Organism :=
  match life_form_registry.lookup (str_lower species_type) with
  | none => .error ("Unknown species type: " ++ species_type)
  | some species =>
      if str_lower species_type = "fish" then
        .ok (.lifeForm .fish Fish.init)
      else
        match species with
        | .fish => .ok (.lifeForm .fish Fish.init)
        | .amphibian =>
            .ok (.lifeForm .amphibian
              (Amphibian.init (kwargs.inherited_complexity.getD 2)
                (kwargs.inherited_message.getD "")))
        | .reptile =>
            .ok (.lifeForm .reptile
              (Reptile.init (kwargs.inherited_complexity.getD 6)
                (kwargs.inherited_message.getD "")))
        | .dinosaur =>
            .ok (.lifeForm .dinosaur
              (Dinosaur.init (kwargs.inherited_complexity.getD 24)
                (kwargs.inherited_message.getD "")))

/-- The two strategy classes registered in EvolutionStrategyFactory
(strategy.py); AcceleratedEvolutionStrategy carries its
acceleration_factor. -/
inductive StrategyValue where
  | linear
  | accelerated (acceleration_factor : Nat)
deriving DecidableEq, Repr

/-- The class tags stored in EvolutionStrategyFactory._strategies. -/
inductive StrategyClass where
  | linearClass
  | acceleratedClass
deriving DecidableEq, Repr

/-- EvolutionStrategyFactory._strategies. -/
def strategy_registry : List (String × StrategyClass) :=
  [("linear", .linearClass), ("accelerated", .acceleratedClass)]

/-- EvolutionStrategyFactory.create_strategy(strategy_type, **kwargs): look up
the lower-cased name, raising ValueError("Unknown strategy type: ...") when
absent; construct the linear strategy with no arguments, the accelerated one
from the kwargs (acceleration_factor defaults to 2). -/
def create_strategy (strategy_type : String)
    (acceleration_kwarg : Option Nat) : Except String StrategyValue :=
  match strategy_registry.lookup (str_lower strategy_type) with
  | none => .error ("Unknown strategy type: " ++ strategy_type)
  | some cls =>
      if str_lower strategy_type = "linear" then
        .ok .linear
      else
        match cls with
        | .linearClass => .ok .linear
        | .acceleratedClass => .ok (.accelerated (acceleration_kwarg.getD 2))

/-- HelloWorldOrchestrator.create_initial_organism:
self._factory.create_life_form('fish'), which constructs Fish(). -/
def create_initial_organism : Organism :=
  Organism.lifeForm .fish Fish.init

/-- ComplexityWrapper.pipeline_execute (main.py): create the initial Fish,
run the evolution pipeline, extract the message, wrap it lazily, force it.
The debug flag only adds print statements along the way; it does not enter
the returned value. (The lifeForm arm of the match is unreachable: the
evolution of the Fish seed always ends in a MessageBearer.) -/
def pipeline_execute (debug : Bool) : String :=
  let organism := create_initial_organism
  let final_form := run_evolution (some organism)
  let message :=
    match final_form with
    | .bearer b => extract_message b
    | .lifeForm _ st => st.message_fragment
  let _ := debug
  LazyMessage.force (fun _ => message)

/-- SingletonMeta.__call__ (singleton.py) acting on the _instances registry,
modelled as an association list with at most one entry per key: if the class
is absent, construct an instance and record it; in both cases return the
registered instance together with the updated registry. -/
def SingletonMeta.call {κ α : Type} [BEq κ] (instances : List (κ × α))
    (cls : κ) (construct : Unit → α) : α × List (κ × α) :=
  match instances.lookup cls with
  | some inst => (inst, instances)
  | none =>
      let inst := construct ()
      (inst, (cls, inst) :: instances)

/-- SingletonMeta.clear_instances: empty the registry. -/
def SingletonMeta.clear_instances {κ α : Type} (_instances : List (κ × α)) :
    List (κ × α) :=
  []

/-- Modelled from the spec: the Stage Transformer
`transform(accumulator, stageIndex)` of section 4.1, with its rule table
(0: append "ello", 1: append " ", 2: append "World", 3 and 4: identity) and
the OutOfRangeError for a stage index outside [0,4]. The repository has no
single function of this shape under src/: the in-range rules are realized
implicitly by the per-stage evolve chain (proved below to agree), and no
code path takes an out-of-range index. The index is an integer, so
out-of-range covers negative indices as well. -/
def transform (accumulator : String) (stageIndex : Int) :
    Except String String :=
  if stageIndex = 0 then .ok (accumulator ++ "ello")
  else if stageIndex = 1 then .ok (accumulator ++ " ")
  else if stageIndex = 2 then .ok (accumulator ++ "World")
  else if stageIndex = 3 then .ok accumulator
  else if stageIndex = 4 then .ok accumulator
  else .error "OutOfRangeError"

/-- The run_evolution loop instrumented with the list of stages whose
iteration body is entered (each entered iteration first calls
notify_observers(current, stage), then applies the stage's transformation:
current.evolve() for a LifeForm, and for an organism without evolve the
terminal break that leaves the organism unchanged). -/
def run_evolution_loop_visited :
    List EvolutionStage → Organism → List EvolutionStage × Organism
  | [], current => ([], current)
  | stage :: rest, current =>
      match current with
      | .lifeForm species st =>
          let (visited, result) :=
            run_evolution_loop_visited rest (evolve species st)
          (stage :: visited, result)
      | .bearer b => ([stage], .bearer b)

/-- The run_evolution loop with a step that may raise (current.evolve() is
the only expression of the loop body that can raise): a Python exception
propagates out of the for loop immediately, so the loop returns either the
organism after a completed (or broken) iteration sequence, or the first
error, with no partial result. -/
def run_evolution_loop_raising
    (step : Species → LifeFormState → Except String Organism) :
    List EvolutionStage → Organism → Except String Organism
  | [], current => .ok current
  | _stage :: rest, current =>
      match current with
      | .lifeForm species st =>
          match step species st with
          | .error e => .error e
          | .ok next => run_evolution_loop_raising step rest next
      | .bearer b => .ok (.bearer b)

/-- The complexity carried by an organism, when it has one (MessageBearer
stores no complexity). -/
def complexity_of : Organism → Option Nat
  | .lifeForm _ st => some st.complexity
  | .bearer _ => none

/-- The fixed mutation factor each species' evolve passes to mutate. -/
def stage_factor : Species → Nat
  | .fish => 2
  | .amphibian => 3
  | .reptile => 4
  | .dinosaur => 5

/-- A key whose lookup in an association list is none heads no entry of the
list. -/
theorem not_mem_keys_of_lookup_none {κ α : Type} [BEq κ] [LawfulBEq κ]
    (l : List (κ × α)) (k : κ) (h : l.lookup k = none) :
    k ∉ l.map Prod.fst := by
  induction l with
  | nil => simp
  | cons p t ih =>
      rw [List.lookup] at h
      cases hb : (k == p.1) with
      | true => rw [hb] at h; exact absurd h (by simp)
      | false =>
          rw [hb] at h
          simp only [List.map_cons, List.mem_cons, not_or]
          exact ⟨by simpa using hb, ih h⟩

/-- C1: running EvolutionEngine.run_evolution (default linear strategy) on
the seed Fish carrying "H" traverses Fish→Amphibian→Reptile→Dinosaur→
MessageBearer, the fragments accumulating "H" ++ "ello" ++ " " ++ "World",
and the resulting MessageBearer.reveal() is exactly "Hello World"; the
omitted-argument default (Fish()) gives the same result. -/
theorem c1_run_evolution_reveals_hello_world :
    run_evolution (some (.lifeForm .fish Fish.init)) = .bearer ⟨"Hello World"⟩
    ∧ run_evolution none = run_evolution (some (.lifeForm .fish Fish.init))
    ∧ (MessageBearer.mk ("H" ++ "ello" ++ " " ++ "World")).reveal =
        "Hello World"
    ∧ evolve .fish Fish.init = .lifeForm .amphibian (Amphibian.init 2 "H")
    ∧ evolve .amphibian (Amphibian.init 2 "H") =
        .lifeForm .reptile (Reptile.init 6 "Hello")
    ∧ evolve .reptile (Reptile.init 6 "Hello") =
        .lifeForm .dinosaur (Dinosaur.init 24 "Hello ")
    ∧ evolve .dinosaur (Dinosaur.init 24 "Hello ") = .bearer ⟨"Hello World"⟩ :=
  ⟨by decide, by decide, by decide, by decide, by decide, by decide, by decide⟩

/-- C2: on the default Fish seed the run_evolution loop enters exactly five
iterations, one per stage of the fixed ascending stages list (indices 0..4),
and each iteration applies the index-k accumulator transformation of the
rule table (the terminal one realized by the break that leaves the organism
unchanged); when a transformer invocation fails, the failure propagates
immediately out of the loop with no partial result, and on never-failing
steps the raising loop agrees with the pure one. -/
theorem c2_five_stages_ascending_fail_fast :
    run_evolution_loop_visited run_evolution_stages
        (.lifeForm .fish Fish.init) =
      ([.AQUATIC, .AMPHIBIOUS, .TERRESTRIAL, .APEX_PREDATOR, .TRANSCENDENT],
        .bearer ⟨"Hello World"⟩)
    ∧ run_evolution_stages.length = 5
    ∧ (∀ st, transform (message_of (.lifeForm .fish st)) 0 =
        .ok (message_of (evolve .fish st)))
    ∧ (∀ st, transform (message_of (.lifeForm .amphibian st)) 1 =
        .ok (message_of (evolve .amphibian st)))
    ∧ (∀ st, transform (message_of (.lifeForm .reptile st)) 2 =
        .ok (message_of (evolve .reptile st)))
    ∧ (∀ st, transform (message_of (.lifeForm .dinosaur st)) 3 =
        .ok (message_of (evolve .dinosaur st)))
    ∧ (∀ b, transform (message_of (.bearer b)) 4 =
        .ok (message_of (run_evolution_loop [.TRANSCENDENT] (.bearer b))))
    ∧ (∀ step stage rest species st e, step species st = .error e →
        run_evolution_loop_raising step (stage :: rest)
          (.lifeForm species st) = .error e)
    ∧ (∀ stages current,
        run_evolution_loop_raising
          (fun species st => .ok (evolve species st)) stages current =
        .ok (run_evolution_loop stages current)) := by
  refine ⟨by decide, rfl, fun st => rfl, fun st => rfl, fun st => rfl,
    fun st => rfl, fun b => rfl, ?_, ?_⟩
  · intro step stage rest species st e h
    simp [run_evolution_loop_raising, h]
  · intro stages current
    induction stages generalizing current with
    | nil => rfl
    | cons s rest ih =>
        cases current with
        | lifeForm sp st =>
            simp [run_evolution_loop_raising, run_evolution_loop, ih]
        | bearer b => rfl

/-- Witness for C2: a step failing at the first stage makes the loop return
exactly that error. -/
theorem c2_five_stages_ascending_fail_fast_witness :
    run_evolution_loop_raising (fun _ _ => Except.error "boom")
      [EvolutionStage.AQUATIC] (.lifeForm .fish Fish.init) =
      .error "boom" :=
  c2_five_stages_ascending_fail_fast.2.2.2.2.2.2.2.1
    (fun _ _ => Except.error "boom") .AQUATIC [] .fish Fish.init "boom" rfl

/-- C3: for every accumulator string and every stage index outside [0,4]
(negative or above 4), the Stage Transformer fails with OutOfRangeError
instead of returning a string. -/
theorem c3_out_of_range_error (s : String) (stageIndex : Int)
    (h : stageIndex < 0 ∨ 4 < stageIndex) :
    transform s stageIndex = .error "OutOfRangeError" := by
  have h0 : ¬ stageIndex = 0 := by omega
  have h1 : ¬ stageIndex = 1 := by omega
  have h2 : ¬ stageIndex = 2 := by omega
  have h3 : ¬ stageIndex = 3 := by omega
  have h4 : ¬ stageIndex = 4 := by omega
  simp [transform, h0, h1, h2, h3, h4]

/-- Witness for C3: index 5 in particular fails with OutOfRangeError. -/
theorem c3_out_of_range_error_witness :
    ((5 : Int) < 0 ∨ 4 < (5 : Int))
    ∧ transform "Hello World" 5 = .error "OutOfRangeError" :=
  ⟨Or.inr (by decide), c3_out_of_range_error "Hello World" 5 (Or.inr (by decide))⟩

/-- C4: the terminal stage (index 4) is the identity on the accumulator:
transform s 4 returns s unchanged for every string s, and the code's
terminal handling (the TRANSCENDENT iteration on a MessageBearer, and any
remaining stages after it) leaves the organism, hence its message,
unchanged. -/
theorem c4_terminal_stage_identity :
    (∀ s : String, transform s 4 = .ok s)
    ∧ (∀ b : MessageBearer,
        run_evolution_loop [.TRANSCENDENT] (.bearer b) = .bearer b)
    ∧ (∀ (stages : List EvolutionStage) (b : MessageBearer),
        run_evolution_loop stages (.bearer b) = .bearer b) := by
  refine ⟨fun s => rfl, fun b => rfl, fun stages b => ?_⟩
  cases stages with
  | nil => rfl
  | cons s rest => rfl

/-- C5: the Result Extractor is the identity: extract_message returns the
bearer's message unchanged (including the empty string), and the string
level render (apply_pipeline with MessageTransformer.identity) is the
identity, hence idempotent. -/
theorem c5_result_extractor_identity :
    (∀ b : MessageBearer, extract_message b = b.reveal)
    ∧ extract_message ⟨""⟩ = ""
    ∧ (∀ x : String, render x = x)
    ∧ (∀ x : String, render (render x) = render x) :=
  ⟨fun _b => rfl, rfl, fun _x => rfl, fun _x => rfl⟩

/-- C6: the full pipeline is deterministic: pipeline_execute computes
"Hello World" for every debug setting, so any two invocations with the same
seed and debug setting produce byte-identical output. -/
theorem c6_pipeline_deterministic :
    (∀ debug : Bool, pipeline_execute debug = "Hello World")
    ∧ (∀ d1 d2 : Bool, pipeline_execute d1 = pipeline_execute d2) := by
  have h : ∀ debug : Bool, pipeline_execute debug = "Hello World" := by
    intro debug
    rfl
  exact ⟨h, fun d1 d2 => (h d1).trans (h d2).symm⟩

/-- C7: an unregistered species or strategy name makes the factory fail with
the unknown-variant ValueError, constructing nothing. -/
theorem c7_unknown_variant_error
    (species_type strategy_type : String)
    (kwargs : LifeFormKwargs) (acceleration_kwarg : Option Nat)
    (hs : life_form_registry.lookup (str_lower species_type) = none)
    (ht : strategy_registry.lookup (str_lower strategy_type) = none) :
    create_life_form species_type kwargs =
      .error ("Unknown species type: " ++ species_type)
    ∧ create_strategy strategy_type acceleration_kwarg =
      .error ("Unknown strategy type: " ++ strategy_type) := by
  constructor
  · simp [create_life_form, hs]
  · simp [create_strategy, ht]

/-- Witness for C7: the unregistered names "dragon" and "quantum" fail. -/
theorem c7_unknown_variant_error_witness :
    life_form_registry.lookup (str_lower "dragon") = none
    ∧ strategy_registry.lookup (str_lower "quantum") = none
    ∧ (create_life_form "dragon" ⟨none, none⟩ =
        .error "Unknown species type: dragon"
      ∧ create_strategy "quantum" none =
        .error "Unknown strategy type: quantum") :=
  ⟨by decide, by decide,
    c7_unknown_variant_error "dragon" "quantum" ⟨none, none⟩ none
      (by decide) (by decide)⟩

/-- C8: MessageGenerator.generate never fails on an unknown strategy name:
for every source and every strategy string outside the registry keys
simple/dynamic/meta/composed, it silently falls back to simple generation
and returns str(source). -/
theorem c8_generate_unknown_strategy_falls_back
    (source : GenSource) (strategy : String)
    (h : strategy ∉ (["simple", "dynamic", "meta", "composed"] : List String)) :
    MessageGenerator.generate source strategy = source.str_value := by
  simp only [List.mem_cons, List.not_mem_nil, or_false, not_or] at h
  obtain ⟨h1, h2, h3, h4⟩ := h
  have b1 : (strategy == "simple") = false := by simp [h1]
  have b2 : (strategy == "dynamic") = false := by simp [h2]
  have b3 : (strategy == "meta") = false := by simp [h3]
  have b4 : (strategy == "composed") = false := by simp [h4]
  simp [MessageGenerator.generate, MessageGenerator.strategies, List.lookup,
    MessageGenerator._simple_generation, b1, b2, b3, b4]

/-- Witness for C8: the unregistered strategy name "unknown" returns
str(source). -/
theorem c8_generate_unknown_strategy_falls_back_witness :
    ("unknown" ∉ (["simple", "dynamic", "meta", "composed"] : List String))
    ∧ MessageGenerator.generate ⟨false, "", "str-of-source"⟩ "unknown" =
        "str-of-source" :=
  ⟨by decide,
    c8_generate_unknown_strategy_falls_back ⟨false, "", "str-of-source"⟩
      "unknown" (by decide)⟩

/-- C9: SingletonMeta: when the registry keys are duplicate-free, a second
call (with any constructor) returns exactly the first call's instance and
leaves the registry unchanged (hence so do all later calls); the first call
on an absent class returns the freshly constructed instance; the registry
keeps at most one entry per class; and clear_instances empties it. -/
theorem c9_singleton_meta {κ α : Type} [BEq κ] [LawfulBEq κ]
    (instances : List (κ × α)) (cls : κ) (construct construct' : Unit → α)
    (hnodup : (instances.map Prod.fst).Nodup) :
    SingletonMeta.call (SingletonMeta.call instances cls construct).2 cls
        construct' = SingletonMeta.call instances cls construct
    ∧ (instances.lookup cls = none →
        (SingletonMeta.call instances cls construct).1 = construct ())
    ∧ (((SingletonMeta.call instances cls construct).2).map Prod.fst).Nodup
    ∧ SingletonMeta.clear_instances
        (SingletonMeta.call instances cls construct).2 = ([] : List (κ × α)) := by
  cases h : instances.lookup cls with
  | some inst =>
      refine ⟨?_, ?_, ?_, rfl⟩
      · simp [SingletonMeta.call, h]
      · intro hnone
        exact absurd hnone (by simp)
      · simpa [SingletonMeta.call, h] using hnodup
  | none =>
      refine ⟨?_, ?_, ?_, rfl⟩
      · simp [SingletonMeta.call, h, List.lookup]
      · intro _
        simp [SingletonMeta.call, h]
      · simp only [SingletonMeta.call, h, List.map_cons, List.nodup_cons]
        exact ⟨not_mem_keys_of_lookup_none instances cls h, hnodup⟩

/-- Witness for C9: from the empty registry, constructing twice returns the
first instance and the one-entry registry. -/
theorem c9_singleton_meta_witness :
    (([] : List (Nat × Nat)).map Prod.fst).Nodup
    ∧ (SingletonMeta.call
        (SingletonMeta.call ([] : List (Nat × Nat)) 0 (fun _ => 7)).2 0
          (fun _ => 8) =
        SingletonMeta.call ([] : List (Nat × Nat)) 0 (fun _ => 7)
      ∧ (([] : List (Nat × Nat)).lookup 0 = none →
          (SingletonMeta.call ([] : List (Nat × Nat)) 0 (fun _ => 7)).1 = 7)
      ∧ (((SingletonMeta.call ([] : List (Nat × Nat)) 0
            (fun _ => 7)).2).map Prod.fst).Nodup
      ∧ SingletonMeta.clear_instances
          (SingletonMeta.call ([] : List (Nat × Nat)) 0 (fun _ => 7)).2 =
          ([] : List (Nat × Nat))) :=
  ⟨by simp, c9_singleton_meta [] 0 (fun _ => 7) (fun _ => 8) (by simp)⟩

/-- C10: every LifeForm satisfies dna.get() == complexity after construction
(base init, carry_message, and each subclass constructor) and after every
mutate; each evolve multiplies the complexity by the species' fixed stage
factor (2, 3, 4, 5); and the default chain's complexities are 1, 2, 6, 24,
the final evolve's mutate computing 120. -/
theorem c10_dna_complexity_invariant :
    (∀ c : Nat, (LifeForm.init c).dna.get = (LifeForm.init c).complexity)
    ∧ (∀ st frag, (carry_message st frag).dna.get = st.dna.get
        ∧ (carry_message st frag).complexity = st.complexity)
    ∧ Fish.init.dna.get = Fish.init.complexity
    ∧ (∀ c m, (Amphibian.init c m).dna.get = (Amphibian.init c m).complexity
        ∧ (Reptile.init c m).dna.get = (Reptile.init c m).complexity
        ∧ (Dinosaur.init c m).dna.get = (Dinosaur.init c m).complexity)
    ∧ (∀ st f, (mutate st f).dna.get = (mutate st f).complexity)
    ∧ (∀ (sp : Species) (st : LifeFormState), st.dna.get = st.complexity →
        (mutate st (stage_factor sp)).complexity =
          st.complexity * stage_factor sp)
    ∧ (∀ (sp : Species) (st : LifeFormState), st.dna.get = st.complexity →
        sp ≠ .dinosaur →
        complexity_of (evolve sp st) = some (st.complexity * stage_factor sp))
    ∧ Fish.init.complexity = 1
    ∧ complexity_of (evolve .fish Fish.init) = some 2
    ∧ complexity_of (run_evolution_loop [.AQUATIC, .AMPHIBIOUS]
        (.lifeForm .fish Fish.init)) = some 6
    ∧ complexity_of (run_evolution_loop [.AQUATIC, .AMPHIBIOUS, .TERRESTRIAL]
        (.lifeForm .fish Fish.init)) = some 24
    ∧ (mutate (Dinosaur.init 24 "Hello ") 5).complexity = 120 := by
  refine ⟨fun c => rfl, fun st frag => ⟨rfl, rfl⟩, rfl, fun c m => ⟨rfl, rfl, rfl⟩,
    fun st f => rfl, ?_, ?_, rfl, by decide, by decide, by decide, by decide⟩
  · intro sp st h
    cases sp <;>
      simp [mutate, DNASequence.fmap, DNASequence.get, stage_factor] <;>
      rw [← h] <;> rfl
  · intro sp st h hne
    cases sp with
    | fish =>
        simp [evolve, complexity_of, Amphibian.init, carry_message,
          LifeForm.init, mutate, DNASequence.fmap, DNASequence.get,
          stage_factor]
        rw [← h]
        rfl
    | amphibian =>
        simp [evolve, complexity_of, Reptile.init, carry_message,
          LifeForm.init, mutate, DNASequence.fmap, DNASequence.get,
          stage_factor]
        rw [← h]
        rfl
    | reptile =>
        simp [evolve, complexity_of, Dinosaur.init, carry_message,
          LifeForm.init, mutate, DNASequence.fmap, DNASequence.get,
          stage_factor]
        rw [← h]
        rfl
    | dinosaur => exact absurd rfl hne

/-- Witness for C10: the invariant and the factor-2 multiplication applied
to the concrete Fish. -/
theorem c10_dna_complexity_invariant_witness :
    Fish.init.dna.get = Fish.init.complexity
    ∧ (mutate Fish.init (stage_factor .fish)).complexity =
        Fish.init.complexity * stage_factor .fish
    ∧ complexity_of (evolve .fish Fish.init) =
        some (Fish.init.complexity * stage_factor .fish) :=
  ⟨by decide,
    c10_dna_complexity_invariant.2.2.2.2.2.1 .fish Fish.init (by decide),
    c10_dna_complexity_invariant.2.2.2.2.2.2.1 .fish Fish.init (by decide)
      (by decide)⟩

end HelloWorldEvolution
